import Mathlib

/-!
Verification development for the lead lifecycle & delivery-event correlation
engine of `generate_server.py`.

The Python code is shallowly embedded: a lead record is a structure of
optional fields (`none` models an absent key or a JSON `null`), the lead
store is a `List Lead`, and every operation of the core is a pure Lean
function mirroring the corresponding Python function line by line.
ISO-8601 timestamp parsing (`datetime.fromisoformat` inside
`_parse_iso_timestamp`) is abstracted as a parameter
`parse : String → Option Nat` giving seconds on an absolute axis whose
origin is `datetime.min` (so every parsed value is `≥ 0`, matching the
`or datetime.min` sort default); the early-return cases of
`_parse_iso_timestamp` (non-string, empty, whitespace) are embedded
concretely.  External collaborators (the Brevo send call, the Brevo
open-event lookup) are oracles passed as function arguments.
-/

/-! ## Python string primitives

`str.lower` and `str.strip` are embedded over the character list of the
string (ASCII-faithful, which is what the code manipulates). -/

/-- Embedding of Python `str.lower`. -/
def strLower (s : String) : String := ⟨s.data.map Char.toLower⟩

/-- Whitespace test used by the `str.strip` embedding. -/
def isWsChar (c : Char) : Bool := c = ' ' || c = '\t' || c = '\n' || c = '\r'

/-- Embedding of Python `str.strip`. -/
def strTrim (s : String) : String :=
  ⟨((s.data.dropWhile isWsChar).reverse.dropWhile isWsChar).reverse⟩

/-- Truthiness of an optional string value, as Python sees it:
a missing key or `None` or the empty string is falsy. -/
def optTruthy (v : Option String) : Bool :=
  match v with
  | none => false
  | some s => s ≠ ""

/-- Embedding of Python `a or b` on two optional string values. -/
def pyOr (a b : Option String) : Option String :=
  if optTruthy a then a else b

/-- Embedding of Python `a or d` where `d` is a (string) default:
the result collapses to a plain string. -/
def pyOrStr (a : Option String) (d : String) : String :=
  match a with
  | none => d
  | some s => if s = "" then d else s

/-! ## Data model -/

/-- One lead record (`leads.json` entry).  Only the fields read or written
by the lifecycle/correlation core are modelled.  `none` stands for an
absent key (or stored `null`); the code distinguishes the two only via
`'email_opened' not in lead`, and `email_opened` is never stored as
`null`, so the collapse is faithful. -/
structure Lead where
  place_id : Option String := none
  name : Option String := none
  email : Option String := none
  status : Option String := none
  queued_at : Option String := none
  sent_at : Option String := none
  brevo_message_id : Option String := none
  email_opened : Option Bool := none
  email_opened_at : Option String := none
  email_open_state : Option String := none
  email_open_checked_at : Option String := none
  last_brevo_event : Option String := none
  last_brevo_event_at : Option String := none
deriving Repr, DecidableEq

/-- An inbound Brevo event dict; the keys the correlator reads. -/
structure BrevoEvent where
  event : Option String := none
  email : Option String := none
  recipient : Option String := none
  messageIdDashed : Option String := none
  messageIdCamel : Option String := none
  messageIdSnake : Option String := none
  date : Option String := none
deriving Repr, DecidableEq

/-- Python `(lead.get('status') or '').lower()`. -/
def statusLower (l : Lead) : String := strLower (l.status.getD "")

/-- Python `lead.get('email_opened')` truthiness (`none` = key absent). -/
def openedTruthy (l : Lead) : Bool := l.email_opened = some true

/-! ## Shared helpers from the source -/

/-- Embedding of `_normalize_message_id`: stringify, strip, remove one
outer `<...>` pair, strip again; `None`/empty normalizes to `''`. -/
def _normalize_message_id (value : Option String) : String :=
  match value with
  | none => ""
  | some v =>
    let text := strTrim v
    if text = "" then ""
    else if text.data.head? = some '<' && text.data.getLast? = some '>' then
      strTrim ⟨(text.data.drop 1).dropLast⟩
    else text

/-- Embedding of `_parse_iso_timestamp` applied to an optional stored
string.  The concrete early exits (`None`, empty, whitespace-only) are kept;
the actual ISO-8601 decoding of the stripped text is the abstract
parameter `parse` (seconds since `datetime.min`, hence a `Nat`). -/
def _parse_iso_timestamp (parse : String → Option Nat) (value : Option String) : Option Nat :=
  match value with
  | none => none
  | some v => if strTrim v = "" then none else parse (strTrim v)

/-! ## Status state machine: bulk Approved → Queued -/

/-- The case-insensitive `Approved` test of `_queue_approved_leads_for_sending`. -/
def isApproved (l : Lead) : Bool := statusLower l = "approved"

/-- Embedding of `_queue_approved_leads_for_sending`: one pass over the
collection; every lead whose status lowercases to `approved` becomes
`Queued` with `queued_at` stamped; returns the new collection and the
count of transitioned leads (the snapshot is saved only when the count is
positive, which the pure value already reflects: count `0` implies the
returned collection is the input). -/
def _queue_approved_leads_for_sending (now : String) (leads : List Lead) :
    List Lead × Nat :=
  (leads.map (fun l =>
      if isApproved l then
        { l with
            status := some "Queued"
            queued_at := some now }
      else l),
   leads.countP (fun l => isApproved l))

/-! ## Dispatch queue worker -/

/-- Result of the external Brevo send call for one lead:
success carries the optional `messageId` of the response JSON; `err`
models a raised exception (caught and logged by the worker). -/
inductive DispatchOutcome where
  | ok (messageId : Option String) : DispatchOutcome
  | err : DispatchOutcome
deriving Repr, DecidableEq

/-- Worker eligibility filter: `status` lowercases to `queued` and
`sent_at` is falsy (absent, `null` or empty). -/
def sendEligible (l : Lead) : Bool := statusLower l = "queued" && !optTruthy l.sent_at

/-- What one loop body of `_process_send_queue` does to one eligible lead:
leads without a truthy email are skipped by `continue` before the dispatch
call (no mutation, no snapshot save, and — because `continue` jumps over
`time.sleep` — no pacing sleep); otherwise the send is attempted, a
success marks the lead `Sent`/`sent_at`, backfills `brevo_message_id`
when the response carries a truthy `messageId`, resets the open-tracking
fields and saves the snapshot, a failure leaves the lead unchanged; both
attempt outcomes sleep the pacing interval. -/
def _send_one (send : Lead → DispatchOutcome) (nowIso : String) (l : Lead) :
    Lead × Bool × Bool × Bool :=
  if optTruthy l.email then
    match send l with
    | DispatchOutcome.ok mid =>
      ({ l with
          status := some "Sent"
          sent_at := some nowIso
          brevo_message_id := if optTruthy mid then mid else l.brevo_message_id
          email_opened := some false
          email_opened_at := none
          email_open_checked_at := none },
        true, true, true)
    | DispatchOutcome.err => (l, true, true, false)
  else (l, false, false, false)

/-- Aggregate outcome of one full pass of the worker over the snapshot:
the new collection, the leads submitted to the dispatch call (values as
read before mutation), the number of pacing sleeps and of snapshot
saves. -/
structure PassResult where
  leads : List Lead
  dispatched : List Lead
  sleeps : Nat
  saves : Nat
deriving Repr, DecidableEq

/-- One pass of the `while` body of `_process_send_queue` over the loaded
snapshot: the targets are the eligible leads, processed in load order via
`_send_one`; ineligible leads are untouched. -/
def _process_pass (send : Lead → DispatchOutcome) (nowIso : String)
    (leads : List Lead) : PassResult :=
  leads.foldr (fun l acc =>
    if sendEligible l then
      let a := _send_one send nowIso l
      { leads := a.1 :: acc.leads
        dispatched := (if a.2.1 then [l] else []) ++ acc.dispatched
        sleeps := (if a.2.2.1 then 1 else 0) + acc.sleeps
        saves := (if a.2.2.2 then 1 else 0) + acc.saves }
    else { acc with leads := l :: acc.leads }) ⟨[], [], 0, 0⟩

/-- One iteration of the worker's `while True` loop: reload the snapshot,
compute the targets; if empty, break (`none`); otherwise run the pass and
continue with the saved collection. -/
def workerStep (send : Lead → DispatchOutcome) (nowIso : String)
    (leads : List Lead) : Option (List Lead) :=
  if (leads.filter sendEligible).isEmpty then none
  else some (_process_pass send nowIso leads).leads

/-- Fuelled run of the worker loop: `none` means the loop terminated
(observed an empty eligible set) within `n` iterations, `some leads`
means it is still running after `n` iterations with `leads` as the
current snapshot. -/
def workerRun (send : Lead → DispatchOutcome) (nowIso : String) :
    Nat → List Lead → Option (List Lead)
  | 0, leads => some leads
  | n + 1, leads =>
    match workerStep send nowIso leads with
    | none => none
    | some leads' => workerRun send nowIso n leads'

/-! ## Delivery event correlator: indices -/

/-- Default (all-absent) lead used to read a position out of the snapshot. -/
def defLead : Lead := {}

/-- The lead stored at position `i` of the snapshot.  Positions play the
role of the Python dict references held by the two indices: mutating the
snapshot at a position is visible through every index holding it. -/
def leadAt (leads : List Lead) (i : Nat) : Lead := leads.getD i defLead

/-- Sort key of `_build_email_index`:
`_parse_iso_timestamp(lead.get('sent_at') or '') or datetime.min`, i.e.
the parsed send time with undated leads collapsing to the global minimum
(`0` on the seconds-since-`datetime.min` axis). -/
def sentKey (parse : String → Option Nat) (l : Lead) : Nat :=
  (_parse_iso_timestamp parse l.sent_at).getD 0

/-- Stable insertion into a descending-by-key list: the new element goes
in front of the first element whose key is `≤` its own, so earlier list
elements win ties — the behaviour of Python's stable `list.sort` with
`reverse=True`. -/
def orderedInsertDesc (key : Nat → Nat) (a : Nat) : List Nat → List Nat
  | [] => [a]
  | b :: l => if key b ≤ key a then a :: b :: l else b :: orderedInsertDesc key a l

/-- Stable descending sort by a `Nat` key (insertion sort). -/
def sortByKeyDesc (key : Nat → Nat) : List Nat → List Nat
  | [] => []
  | a :: l => orderedInsertDesc key a (sortByKeyDesc key l)

/-- Python `str(lead.get('email') or '').strip().lower()`. -/
def emailKeyOf (l : Lead) : String := strLower (strTrim (l.email.getD ""))

/-- Embedding of `_build_email_index` as a lookup function: for a
non-empty lowercased email, the positions of the leads carrying that
email, in `sent_at`-descending order (undated last, ties in load
order).  Leads with an empty email key are not indexed. -/
def _build_email_index (parse : String → Option Nat) (leads : List Lead) :
    String → List Nat :=
  fun email =>
    if email = "" then []
    else
      sortByKeyDesc (fun i => sentKey parse (leadAt leads i))
        ((List.range leads.length).filter (fun i => emailKeyOf (leadAt leads i) = email))

/-- Embedding of the webhook's message-id dict
`{normalize(lead['brevo_message_id']): lead for lead in leads if normalize(...)}`
as a lookup function: a dict comprehension is last-wins, so the lookup
returns the highest position whose normalized stored id equals the key;
leads normalizing to `''` are not indexed. -/
def _build_msg_index (leads : List Lead) : String → Option Nat :=
  fun q =>
    if q = "" then none
    else (List.range leads.length).reverse.find?
      (fun i => _normalize_message_id (leadAt leads i).brevo_message_id = q)

/-! ## Delivery event correlator: matching -/

/-- The event's message-id after the three-key fallback chain
`event.get('message-id') or event.get('messageId') or event.get('message_id')`
and normalization. -/
def eventMessageId (event : BrevoEvent) : String :=
  _normalize_message_id
    (pyOr event.messageIdDashed (pyOr event.messageIdCamel event.messageIdSnake))

/-- The event's recipient email key:
`str(event.get('email') or event.get('recipient') or '').strip().lower()`. -/
def eventEmailKey (event : BrevoEvent) : String :=
  strLower (strTrim ((pyOr event.email event.recipient).getD ""))

/-- Embedding of `_find_lead_for_brevo_event`, returning the position of
the matched lead: message-id lookup first (authoritative, returns
immediately); otherwise the recipient-email candidates are scanned in
their most-recent-first order for the first lead sent at or before the
event timestamp plus 10 minutes (600 s); an event with no parseable
timestamp, or a scan with no hit, falls back to the most recent
candidate. -/
def _find_lead_for_brevo_event (parse : String → Option Nat) (leads : List Lead)
    (event : BrevoEvent) (msgIdx : String → Option Nat)
    (emailIdx : String → List Nat) : Option Nat :=
  let mid := eventMessageId event
  match (if mid = "" then none else msgIdx mid) with
  | some i => some i
  | none =>
    let email := eventEmailKey event
    if email = "" then none
    else
      match emailIdx email with
      | [] => none
      | c :: cs =>
        match _parse_iso_timestamp parse event.date with
        | none => some c
        | some t =>
          match (c :: cs).find? (fun i =>
              match _parse_iso_timestamp parse (leadAt leads i).sent_at with
              | some s => decide (s ≤ t + 600)
              | none => false) with
          | some j => some j
          | none => some c

/-! ## Delivery event correlator: merge -/

/-- Python `str(event.get('event') or '').strip().lower()`. -/
def eventTypeOf (event : BrevoEvent) : String := strLower (strTrim (event.event.getD ""))

/-- Merge step 1 of `_apply_brevo_event_to_lead`: backfill
`brevo_message_id` when the event supplies one and the stored value
differs. -/
def applyMsgIdStep (mid : String) (l : Lead) : Lead × Bool :=
  if mid ≠ "" ∧ l.brevo_message_id ≠ some mid then
    ({ l with brevo_message_id := some mid }, true)
  else (l, false)

/-- Merge step 2: refresh `email_open_checked_at` to the processing
timestamp. -/
def applyCheckedAtStep (nowIso : String) (l : Lead) : Lead × Bool :=
  if l.email_open_checked_at ≠ some nowIso then
    ({ l with email_open_checked_at := some nowIso }, true)
  else (l, false)

/-- Merge step 3: the event-kind dispatch (`opened` /
`delivered`-`request`-`sent` / bounce-spam kinds / anything else). -/
def applyKindStep (event_type event_at : String) (l : Lead) : Lead × Bool :=
  if event_type = "opened" then
    let s1 : Lead × Bool :=
      if ¬ openedTruthy l then ({ l with email_opened := some true }, true) else (l, false)
    let s2 : Lead × Bool :=
      if s1.1.email_opened_at ≠ some event_at then
        ({ s1.1 with email_opened_at := some event_at }, true)
      else (s1.1, false)
    let s3 : Lead × Bool :=
      if s2.1.email_open_state ≠ some "opened" then
        ({ s2.1 with email_open_state := some "opened" }, true)
      else (s2.1, false)
    (s3.1, s1.2 || s2.2 || s3.2)
  else if event_type = "delivered" ∨ event_type = "request" ∨ event_type = "sent" then
    let s1 : Lead × Bool :=
      if l.email_opened = none then ({ l with email_opened := some false }, true)
      else (l, false)
    let s2 : Lead × Bool :=
      if s1.1.email_open_state ≠ some "unopened" ∧ s1.1.email_open_state ≠ some "opened" then
        ({ s1.1 with email_open_state := some "unopened" }, true)
      else (s1.1, false)
    (s2.1, s1.2 || s2.2)
  else if event_type = "hard_bounce" ∨ event_type = "soft_bounce" ∨ event_type = "invalid"
      ∨ event_type = "blocked" ∨ event_type = "spam" then
    if l.email_open_state ≠ some "failed" then
      ({ l with email_open_state := some "failed" }, true)
    else (l, false)
  else (l, false)

/-- Merge step 4: record the last provider event kind and timestamp. -/
def applyLastStep (event_type event_at : String) (l : Lead) : Lead × Bool :=
  let s1 : Lead × Bool :=
    if l.last_brevo_event ≠ some event_type then
      ({ l with last_brevo_event := some event_type }, true)
    else (l, false)
  let s2 : Lead × Bool :=
    if s1.1.last_brevo_event_at ≠ some event_at then
      ({ s1.1 with last_brevo_event_at := some event_at }, true)
    else (s1.1, false)
  (s2.1, s1.2 || s2.2)

/-- Embedding of `_apply_brevo_event_to_lead`: an event with an empty
kind is a no-op returning `False`; otherwise the four merge steps run in
sequence and the returned flag says whether anything changed.
`event_at` is `event.get('date') or now_iso`. -/
def _apply_brevo_event_to_lead (l : Lead) (event : BrevoEvent) (nowIso : String) :
    Lead × Bool :=
  let event_type := eventTypeOf event
  if event_type = "" then (l, false)
  else
    let event_at := pyOrStr event.date nowIso
    let r1 := applyMsgIdStep (eventMessageId event) l
    let r2 := applyCheckedAtStep nowIso r1.1
    let r3 := applyKindStep event_type event_at r2.1
    let r4 := applyLastStep event_type event_at r3.1
    (r4.1, r1.2 || r2.2 || r3.2 || r4.2)

/-! ## Open-status freshness cache -/

/-- Default of the `BREVO_OPEN_STATUS_TTL_SECONDS` environment knob. -/
def defaultOpenStatusTTL : Nat := 300

/-- Embedding of `_is_open_status_fresh`: fresh when `email_opened` is
truthy, otherwise when `email_open_checked_at` parses and
`now - checked_at < ttl` (strict; a future `checked_at` gives a negative
age, also fresh, hence the `Int` subtraction). -/
def _is_open_status_fresh (parse : String → Option Nat) (ttl : Nat) (now : Nat)
    (l : Lead) : Bool :=
  if openedTruthy l then true
  else
    match _parse_iso_timestamp parse l.email_open_checked_at with
    | none => false
    | some t => decide ((now : Int) - (t : Int) < (ttl : Int))

/-- One `{opened, opened_at, checked_at, state}` value of the `statuses`
mapping returned by the open-status poll. -/
structure OpenStatusEntry where
  opened : Bool
  opened_at : Option String
  checked_at : Option String
  state : String
deriving Repr, DecidableEq

/-- Outcome of the poll loop body for a single lead: the (possibly
mutated) lead, the `updates[place_id]` entry it contributed (if any),
its contribution to the `changed` flag, and whether the Brevo open-event
lookup was invoked for it. -/
structure RefreshLeadResult where
  lead : Lead
  update : Option (String × OpenStatusEntry)
  changed : Bool
  fetched : Bool
deriving Repr, DecidableEq

/-- The body of the `for lead in leads` loop of `_refresh_open_statuses`
for one lead.  The Brevo open-event pull is the oracle
`fetch : Lead → Option (Option String)`: `some d` is a truthy event dict
whose `date` key holds `d`, `none` is "no event" (also covering the
falsy empty dict and every error path inside `_fetch_brevo_open_event`,
all of which take the same `else` branch). -/
def _refresh_lead (parse : String → Option Nat) (fetch : Lead → Option (Option String))
    (ttl now : Nat) (nowIso : String) (place_ids : Option (List String))
    (l : Lead) : RefreshLeadResult :=
  if ¬ optTruthy l.place_id then ⟨l, none, false, false⟩
  else
    let pid := l.place_id.getD ""
    let inScope : Bool := match place_ids with | none => true | some ids => ids.contains pid
    if ¬ inScope then ⟨l, none, false, false⟩
    else if statusLower l ≠ "sent" then ⟨l, none, false, false⟩
    else if _is_open_status_fresh parse ttl now l then
      ⟨l, some (pid,
          ⟨openedTruthy l, l.email_opened_at, l.email_open_checked_at,
            if openedTruthy l then "opened" else pyOrStr l.email_open_state "unopened"⟩),
        false, false⟩
    else if strTrim (l.brevo_message_id.getD "") = "" then
      ⟨{ l with
          email_open_state := some "unknown"
          email_open_checked_at := some nowIso },
        some (pid, ⟨false, l.email_opened_at, some nowIso, "unknown"⟩), true, false⟩
    else
      match fetch l with
      | some eventDate =>
        let l' : Lead :=
          { l with
              email_open_checked_at := some nowIso
              email_opened := some true
              email_opened_at := some (pyOrStr eventDate nowIso)
              email_open_state := some "opened" }
        ⟨l', some (pid, ⟨true, l'.email_opened_at, some nowIso, "opened"⟩), true, true⟩
      | none =>
        let l' : Lead :=
          { l with
              email_open_checked_at := some nowIso
              email_opened := some false
              email_open_state := some "unopened" }
        ⟨l', some (pid, ⟨false, l'.email_opened_at, some nowIso, "unopened"⟩), true, true⟩

/-- A Python dict write `m[k] = v` on an association-list model of the
`updates` dict (overwrite if the key exists, append otherwise). -/
def dictSet (m : List (String × OpenStatusEntry)) (k : String) (v : OpenStatusEntry) :
    List (String × OpenStatusEntry) :=
  if m.any (fun p => p.1 = k) then m.map (fun p => if p.1 = k then (k, v) else p)
  else m ++ [(k, v)]

/-- Aggregate outcome of `_refresh_open_statuses`: the collection after
the pass (saved when `changed`), the `updates` dict, the `changed` flag
and how many times the provider open-event lookup ran. -/
structure RefreshResult where
  leads : List Lead
  updates : List (String × OpenStatusEntry)
  changed : Bool
  fetchCount : Nat
deriving Repr, DecidableEq

/-- Embedding of `_refresh_open_statuses`: every lead goes through
`_refresh_lead` independently (same `now_iso` for the whole pass), the
per-lead entries are written into the `updates` dict in load order. -/
def _refresh_open_statuses (parse : String → Option Nat)
    (fetch : Lead → Option (Option String)) (ttl now : Nat) (nowIso : String)
    (place_ids : Option (List String)) (leads : List Lead) : RefreshResult :=
  { leads := leads.map (fun l => (_refresh_lead parse fetch ttl now nowIso place_ids l).lead)
    updates :=
      (leads.filterMap (fun l => (_refresh_lead parse fetch ttl now nowIso place_ids l).update)).foldl
        (fun m kv => dictSet m kv.1 kv.2) []
    changed := leads.any (fun l => (_refresh_lead parse fetch ttl now nowIso place_ids l).changed)
    fetchCount := leads.countP (fun l => (_refresh_lead parse fetch ttl now nowIso place_ids l).fetched) }

/-! ## HTTP endpoints of the core -/

/-- The JSON `place_ids` field of a `POST /leads/open-status` body:
`missing` covers an absent key, `null`, or any falsy value (all of which
`payload.get('place_ids') or []` turns into the empty list), `listOf`
a JSON array of strings, `nonListTruthy` a truthy non-list value. -/
inductive PlaceIdsField where
  | missing : PlaceIdsField
  | listOf (vs : List String) : PlaceIdsField
  | nonListTruthy : PlaceIdsField
deriving Repr, DecidableEq

/-- The filter `get_open_status` hands to `_refresh_open_statuses`:
`{str(v).strip() for v in ids_raw if str(v).strip()}` when `ids_raw` is a
list (so a missing/empty field yields the **empty set**, not `None`), and
`None` only when `place_ids` is a truthy non-list. -/
def openStatusFilter (f : PlaceIdsField) : Option (List String) :=
  match f with
  | PlaceIdsField.missing => some []
  | PlaceIdsField.listOf vs => some ((vs.map strTrim).filter (fun s => s ≠ ""))
  | PlaceIdsField.nonListTruthy => none

/-- Embedding of the `POST /leads/open-status` handler `get_open_status`:
builds the filter and runs the refresh; the HTTP reply is
`{'statuses': result.updates}` with code 200. -/
def get_open_status (parse : String → Option Nat)
    (fetch : Lead → Option (Option String)) (ttl now : Nat) (nowIso : String)
    (f : PlaceIdsField) (leads : List Lead) : RefreshResult :=
  _refresh_open_statuses parse fetch ttl now nowIso (openStatusFilter f) leads

/-- A webhook request body, as `_extract_brevo_events` distinguishes it:
a JSON array (whose non-dict items are dropped), a dict with an `events`
list (ditto), any other dict (wrapped as a single event), or anything
else — `null`, a scalar, an unparseable body (all yield no events). -/
inductive BrevoPayload where
  | arr (items : List (Option BrevoEvent)) : BrevoPayload
  | dictWithEvents (items : List (Option BrevoEvent)) : BrevoPayload
  | dictPlain (e : BrevoEvent) : BrevoPayload
  | other : BrevoPayload
deriving Repr, DecidableEq

/-- Embedding of `_extract_brevo_events` (`none` items model non-dict
entries, which are filtered out). -/
def _extract_brevo_events : BrevoPayload → List BrevoEvent
  | BrevoPayload.arr items => items.filterMap id
  | BrevoPayload.dictWithEvents items => items.filterMap id
  | BrevoPayload.dictPlain e => [e]
  | BrevoPayload.other => []

/-- The `POST /brevo/webhook` HTTP reply and resulting store state:
`received`/`matched` are `none` when the corresponding JSON field is
absent from the reply body. -/
structure WebhookResult where
  statusCode : Nat
  received : Option Nat
  matched : Option Nat
  leads : List Lead
  saved : Bool
deriving Repr, DecidableEq

/-- The body of the `for event in events` loop of `brevo_webhook`:
state is (snapshot, message-id index, matched count, changed flag).
A matched event bumps the count, merges into the lead in place, and — if
the merge changed anything — refreshes the message-id index entry for
the lead's (possibly backfilled) id.  The email index was built once
before the loop; it holds positions, so in-place mutations stay visible
through it, exactly like the Python dict references. -/
def webhookFold (parse : String → Option Nat) (nowIso : String)
    (emailIdx : String → List Nat)
    (st : List Lead × (String → Option Nat) × Nat × Bool) (ev : BrevoEvent) :
    List Lead × (String → Option Nat) × Nat × Bool :=
  match _find_lead_for_brevo_event parse st.1 ev st.2.1 emailIdx with
  | none => st
  | some i =>
    let r := _apply_brevo_event_to_lead (leadAt st.1 i) ev nowIso
    let leads' := st.1.set i r.1
    if r.2 then
      let nid := _normalize_message_id r.1.brevo_message_id
      let msgIdx' : String → Option Nat :=
        if nid = "" then st.2.1 else fun q => if q = nid then some i else st.2.1 q
      (leads', msgIdx', st.2.2.1 + 1, true)
    else (leads', st.2.1, st.2.2.1 + 1, st.2.2.2)

/-- Embedding of the `POST /brevo/webhook` handler `brevo_webhook`:
zero extracted events reply `{'message': 'No events in payload'}` (no
`received`/`matched` keys) with 200; otherwise the batch is correlated
and merged, and the reply carries `received` = number of events and
`matched` = number of matched events, again with 200. -/
def brevo_webhook_post (parse : String → Option Nat) (payload : BrevoPayload)
    (leads0 : List Lead) (nowIso : String) : WebhookResult :=
  let events := _extract_brevo_events payload
  if events.isEmpty then ⟨200, none, none, leads0, false⟩
  else
    let st := events.foldl (webhookFold parse nowIso (_build_email_index parse leads0))
      (leads0, _build_msg_index leads0, 0, false)
    ⟨200, some events.length, some st.2.2.1, st.1, st.2.2.2⟩

/-! ## Spec-side definition for the freshness refinement -/

/-- Freshness predicate written from the claim's words (the spec side of
the C8 comparison): a lead is fresh exactly when `email_opened` is
already true, or `now − email_open_checked_at` is strictly below the
TTL. -/
def freshnessClaim (parse : String → Option Nat) (ttl now : Nat) (l : Lead) : Prop :=
  l.email_opened = some true
  ∨ ∃ t, _parse_iso_timestamp parse l.email_open_checked_at = some t
      ∧ (now : Int) - (t : Int) < (ttl : Int)

/-! ## Concrete fixtures used by witnesses and counterexamples -/

/-- Concrete opened lead used to witness C1. -/
def leadC1 : Lead :=
  { place_id := some "pc1", status := some "Sent", email := some "a@x.com",
    sent_at := some "2024-01-01T09:00:00", brevo_message_id := some "m1",
    email_opened := some true, email_opened_at := some "2024-01-01T10:00:00",
    email_open_state := some "opened" }

/-- Concrete `delivered` event used to witness C1. -/
def evC1 : BrevoEvent :=
  { event := some "delivered", email := some "a@x.com",
    date := some "2024-01-01T11:00:00" }

/-- Concrete parse table for the C2 scenario: T = 10:00 (second 1000),
T+20min = 10:20 (second 2200), T+5min = 10:05 (second 1300). -/
def parseC2 : String → Option Nat := fun s =>
  if s = "2024-01-01T10:00:00" then some 1000
  else if s = "2024-01-01T10:20:00" then some 2200
  else if s = "2024-01-01T10:05:00" then some 1300
  else none

/-- C2 scenario: the lead sent at T. -/
def leadC2T : Lead :=
  { place_id := some "pT", email := some "a@x.com", status := some "Sent",
    sent_at := some "2024-01-01T10:00:00" }

/-- C2 scenario: the lead sharing the email, sent at T+20min. -/
def leadC2T20 : Lead :=
  { place_id := some "pT20", email := some "a@x.com", status := some "Sent",
    sent_at := some "2024-01-01T10:20:00" }

/-- C2 scenario: an event with no message-id, timestamped T+5min. -/
def evC2 : BrevoEvent :=
  { event := some "opened", email := some "a@x.com",
    date := some "2024-01-01T10:05:00" }

/-- C3 scenario: lead with stored provider message id `abc`. -/
def leadC3a : Lead :=
  { place_id := some "p3a", email := some "a@x.com", status := some "Sent",
    brevo_message_id := some "abc", sent_at := some "s1" }

/-- C3 scenario: second lead sharing the same recipient email. -/
def leadC3b : Lead :=
  { place_id := some "p3b", email := some "a@x.com", status := some "Sent",
    sent_at := some "s2" }

/-- C3 scenario: event carrying `message-id: "<abc>"` plus the shared
email. -/
def evC3 : BrevoEvent :=
  { event := some "delivered", email := some "a@x.com",
    messageIdDashed := some "<abc>" }

/-- Concrete Sent lead used against C4. -/
def leadC4 : Lead :=
  { place_id := some "p4", status := some "Sent",
    email_opened := some true, email_opened_at := some "o4",
    email_open_checked_at := some "c4" }

/-- Concrete already-opened lead for C5: `email_opened_at` records a
first open at 10:00 on Jan 1. -/
def leadC5 : Lead :=
  { place_id := some "pc5", status := some "Sent",
    email_opened := some true, email_opened_at := some "2024-01-01T10:00:00Z",
    email_open_state := some "opened" }

/-- Concrete later `opened` event for C5, carrying a different
timestamp. -/
def evC5 : BrevoEvent :=
  { event := some "opened", date := some "2024-01-02T11:00:00Z" }

/-- Concrete parse table for the C8 witness: the cached check happened at
second 100. -/
def parseC8 : String → Option Nat := fun s => if s = "t100" then some 100 else none

/-- C8 witness: a lead checked recently (fresh at `now = 200`,
`ttl = 300`). -/
def leadC8fresh : Lead :=
  { place_id := some "p8a", status := some "Sent",
    email_opened := some false, email_open_checked_at := some "t100" }

/-- C8 witness: a stale lead with no provider message id. -/
def leadC8stale : Lead :=
  { place_id := some "p8b", status := some "Sent", email_opened := some false }

/-- C9 witness: an event whose recipient matches no lead. -/
def evC9 : BrevoEvent :=
  { event := some "opened", email := some "nobody@x.com", date := some "d9" }

/-- C6 witness: an eligible queued lead with an email. -/
def leadW6 : Lead :=
  { place_id := some "w6", status := some "Queued", email := some "w@x.com" }

/-- C6 witness: a still-`Queued` lead whose `sent_at` is already set. -/
def leadW6sent : Lead :=
  { place_id := some "w6s", status := some "Queued", email := some "x@x.com",
    sent_at := some "2024-01-01T08:00:00" }

/-- C7 witness: a single Approved lead. -/
def leadW7 : Lead := { place_id := some "w7", status := some "Approved" }

/-- C10 witness: a queued lead with no email at all. -/
def leadW10 : Lead := { place_id := some "w10", status := some "Queued" }

/-! ## Theorems -/

/-- Helper: after the bulk queue pass, no lead in the returned collection
satisfies the Approved test. -/
theorem queue_clears_approved (now : String) (leads : List Lead) :
    ∀ l ∈ (_queue_approved_leads_for_sending now leads).1, isApproved l = false := by
  intro l hl
  simp only [_queue_approved_leads_for_sending, List.mem_map] at hl
  obtain ⟨a, _, rfl⟩ := hl
  by_cases h : isApproved a
  · rw [if_pos h]
    simp only [isApproved, statusLower]
    rfl
  · rw [if_neg h]
    exact Bool.eq_false_iff.mpr h

/-- C7.  Bulk-queue idempotence: one pass transitions exactly the
Approved leads (status becomes `Queued`, `queued_at` is stamped, nothing
else changes and non-Approved leads are untouched), returns the count of
Approved leads, and a second invocation on the result queues 0 and
returns the collection unchanged. -/
theorem C7_bulk_queue_idempotent : ∀ (now now2 : String) (leads : List Lead),
    (_queue_approved_leads_for_sending now leads).2
      = leads.countP (fun l => isApproved l)
    ∧ List.Forall₂ (fun old new =>
        (isApproved old = true →
          new = { old with status := some "Queued", queued_at := some now })
        ∧ (isApproved old = false → new = old))
      leads (_queue_approved_leads_for_sending now leads).1
    ∧ _queue_approved_leads_for_sending now2 (_queue_approved_leads_for_sending now leads).1
      = ((_queue_approved_leads_for_sending now leads).1, 0) := by
  intro now now2 leads
  refine ⟨rfl, ?_, ?_⟩
  · simp only [_queue_approved_leads_for_sending]
    induction leads with
    | nil => exact List.Forall₂.nil
    | cons a as ih =>
      simp only [List.map_cons]
      refine List.Forall₂.cons ⟨fun h => ?_, fun h => ?_⟩ ih
      · rw [if_pos h]
      · rw [h]
        simp
  · have hno := queue_clears_approved now leads
    have h1 : (_queue_approved_leads_for_sending now2
        (_queue_approved_leads_for_sending now leads).1).1
        = (_queue_approved_leads_for_sending now leads).1 := by
      simp only [_queue_approved_leads_for_sending]
      have hcongr : ∀ l ∈ (_queue_approved_leads_for_sending now leads).1,
          (if isApproved l then
            { l with status := some "Queued", queued_at := some now2 } else l) = l := by
        intro l hl
        simp [hno l hl]
      calc (_queue_approved_leads_for_sending now leads).1.map _
          = (_queue_approved_leads_for_sending now leads).1.map id :=
            List.map_congr_left hcongr
        _ = (_queue_approved_leads_for_sending now leads).1 := List.map_id _
    have h2 : (_queue_approved_leads_for_sending now2
        (_queue_approved_leads_for_sending now leads).1).2 = 0 := by
      simp only [_queue_approved_leads_for_sending]
      rw [List.countP_eq_zero]
      intro l hl
      simp [hno l hl]
    exact Prod.ext h1 h2

/-- Helper: every lead the worker pass hands to the dispatch call was
selected by the eligibility filter. -/
theorem pass_dispatched_eligible (send : Lead → DispatchOutcome) (nowIso : String)
    (leads : List Lead) :
    ∀ l ∈ (_process_pass send nowIso leads).dispatched, sendEligible l = true := by
  induction leads with
  | nil => intro l hl; simp [_process_pass] at hl
  | cons a as ih =>
    intro l hl
    simp only [_process_pass, List.foldr_cons] at hl
    by_cases h : sendEligible a
    · simp only [if_pos h] at hl
      rcases List.mem_append.mp hl with h1 | h2
      · have : l = a := by
          rcases (_send_one send nowIso a).2.1 with _ | _ <;> simp_all
        exact this ▸ h
      · exact ih l h2
    · simp only [if_neg h] at hl
      exact ih l hl

/-- C6.  At-most-once send: in every dispatch-worker pass, every lead
submitted to the external mail-dispatch call has status `Queued` and an
unset `sent_at`; in particular a lead whose `sent_at` is already set is
never resubmitted, even if its status is still `Queued`. -/
theorem C6_at_most_once_send (send : Lead → DispatchOutcome) (nowIso : String)
    (leads : List Lead) :
    ∀ l ∈ (_process_pass send nowIso leads).dispatched,
      statusLower l = "queued" ∧ optTruthy l.sent_at = false := by
  intro l hl
  have h := pass_dispatched_eligible send nowIso leads l hl
  simp only [sendEligible, Bool.and_eq_true, decide_eq_true_eq, Bool.not_eq_true',
    Bool.not_eq_eq_eq_not] at h
  exact ⟨h.1, by simpa using h.2⟩

/-- Helper: a lead with a falsy email is skipped by the worker loop body
before anything happens: no mutation, no dispatch, no sleep, no save. -/
theorem send_one_skips_no_email (send : Lead → DispatchOutcome) (nowIso : String)
    (l : Lead) (h : optTruthy l.email = false) :
    _send_one send nowIso l = (l, false, false, false) := by
  simp [_send_one, h]

/-- Helper: when every eligible lead of the snapshot has a falsy email,
the worker pass is a complete no-op: the snapshot is returned unchanged
and there are no dispatch calls, no pacing sleeps and no snapshot
saves. -/
theorem pass_fixpoint_no_email (send : Lead → DispatchOutcome) (nowIso : String)
    (leads : List Lead)
    (hAll : ∀ l ∈ leads, sendEligible l = true → optTruthy l.email = false) :
    _process_pass send nowIso leads = ⟨leads, [], 0, 0⟩ := by
  induction leads with
  | nil => rfl
  | cons a as ih =>
    have ihs : _process_pass send nowIso as = ⟨as, [], 0, 0⟩ :=
      ih (fun l hl he => hAll l (List.mem_cons_of_mem a hl) he)
    simp only [_process_pass, List.foldr_cons] at ihs ⊢
    by_cases h : sendEligible a
    · rw [if_pos h, ihs,
        send_one_skips_no_email send nowIso a (hAll a (List.mem_cons_self a as) h)]
      simp
    · rw [if_neg h, ihs]

/-- C10.  No-email starvation of the dispatch worker: a lead that is
eligible (`Queued`, no `sent_at`) but has a missing or empty email is
skipped before the dispatch call with nothing mutated, persisted or
slept; when the snapshot contains such a lead and every eligible lead is
of that kind, each pass is an identity with zero dispatches, sleeps and
saves, and the loop never observes an empty eligible set: it runs forever
(any number of iterations leaves it still running on the same
snapshot). -/
theorem C10_no_email_starves_worker (send : Lead → DispatchOutcome) (nowIso : String)
    (leads : List Lead)
    (hAll : ∀ l ∈ leads, sendEligible l = true → optTruthy l.email = false)
    (hEx : ∃ l ∈ leads, sendEligible l = true) :
    (∀ l : Lead, sendEligible l = true → optTruthy l.email = false →
      _send_one send nowIso l = (l, false, false, false))
    ∧ _process_pass send nowIso leads = ⟨leads, [], 0, 0⟩
    ∧ ∀ n : Nat, workerRun send nowIso n leads = some leads := by
  refine ⟨fun l _ he => send_one_skips_no_email send nowIso l he,
    pass_fixpoint_no_email send nowIso leads hAll, ?_⟩
  have hstep : workerStep send nowIso leads = some leads := by
    obtain ⟨w, hw, hwe⟩ := hEx
    have hmem : w ∈ leads.filter sendEligible := List.mem_filter.mpr ⟨hw, hwe⟩
    have hne : (leads.filter sendEligible).isEmpty = false := by
      cases hfe : leads.filter sendEligible with
      | nil => rw [hfe] at hmem; exact absurd hmem (List.not_mem_nil w)
      | cons x xs => rfl
    simp only [workerStep, hne, Bool.false_eq_true, if_false,
      pass_fixpoint_no_email send nowIso leads hAll]
  intro n
  induction n with
  | zero => rfl
  | succ k ihk =>
    simp only [workerRun, hstep, ihk]

/-- Helper: merge step 1 touches only `brevo_message_id`. -/
theorem applyMsgIdStep_open_fields (mid : String) (l : Lead) :
    ((applyMsgIdStep mid l).1).email_opened = l.email_opened
    ∧ ((applyMsgIdStep mid l).1).email_opened_at = l.email_opened_at
    ∧ ((applyMsgIdStep mid l).1).email_open_state = l.email_open_state := by
  simp only [applyMsgIdStep]
  split <;> simp

/-- Helper: merge step 2 touches only `email_open_checked_at`. -/
theorem applyCheckedAtStep_open_fields (nowIso : String) (l : Lead) :
    ((applyCheckedAtStep nowIso l).1).email_opened = l.email_opened
    ∧ ((applyCheckedAtStep nowIso l).1).email_opened_at = l.email_opened_at
    ∧ ((applyCheckedAtStep nowIso l).1).email_open_state = l.email_open_state := by
  simp only [applyCheckedAtStep]
  split <;> simp

/-- Helper: merge step 4 touches only the last-event bookkeeping. -/
theorem applyLastStep_open_fields (et ea : String) (l : Lead) :
    ((applyLastStep et ea l).1).email_opened = l.email_opened
    ∧ ((applyLastStep et ea l).1).email_opened_at = l.email_opened_at
    ∧ ((applyLastStep et ea l).1).email_open_state = l.email_open_state := by
  simp only [applyLastStep]
  split_ifs <;> simp

/-- Helper: the `opened` branch of the kind dispatch always ends with
`email_opened = true`, `email_opened_at` equal to the event timestamp
(refreshed whenever it differs), and state `opened`. -/
theorem applyKindStep_opened_fields (ea : String) (l : Lead) :
    ((applyKindStep "opened" ea l).1).email_opened = some true
    ∧ ((applyKindStep "opened" ea l).1).email_opened_at = some ea
    ∧ ((applyKindStep "opened" ea l).1).email_open_state = some "opened" := by
  simp only [applyKindStep, if_pos rfl]
  split_ifs <;> simp_all [openedTruthy]

/-- Helper: no branch of the kind dispatch ever takes `email_opened` away
from `some true`. -/
theorem applyKindStep_keeps_opened (et ea : String) (l : Lead)
    (h : l.email_opened = some true) :
    ((applyKindStep et ea l).1).email_opened = some true := by
  simp only [applyKindStep]
  split_ifs <;> simp_all [openedTruthy]

/-- Helper: an opened lead always passes the freshness test. -/
theorem fresh_of_opened (parse : String → Option Nat) (ttl now : Nat) (l : Lead)
    (h : openedTruthy l = true) :
    _is_open_status_fresh parse ttl now l = true := by
  simp [_is_open_status_fresh, h]

/-- Helper: the open-status poll never mutates an opened lead and never
issues a provider call for it (it is either out of scope or fresh, so the
`unopened`/`unknown`/`failed` write branches are unreachable). -/
theorem refresh_keeps_opened_lead (parse : String → Option Nat)
    (fetch : Lead → Option (Option String)) (ttl now : Nat) (nowIso : String)
    (pids : Option (List String)) (l : Lead) (h : l.email_opened = some true) :
    (_refresh_lead parse fetch ttl now nowIso pids l).lead = l
    ∧ (_refresh_lead parse fetch ttl now nowIso pids l).fetched = false := by
  have hop : openedTruthy l = true := by simp [openedTruthy, h]
  have hfresh := fresh_of_opened parse ttl now l hop
  simp only [_refresh_lead, hfresh, if_true]
  split_ifs <;> exact ⟨rfl, rfl⟩

/-- C1.  Open-state stickiness: a lead with `email_opened = true` keeps
`email_opened = true` under the correlator merge for every provider
event (in particular every non-`opened` kind: delivered/request/sent and
the bounce/spam kinds), and the explicit open-status poll leaves such a
lead entirely unchanged without a provider call — it is always treated
as fresh, so the downgrade branches are unreachable for it. -/
theorem C1_opened_is_sticky :
    (∀ (l : Lead) (ev : BrevoEvent) (nowIso : String), l.email_opened = some true →
      ((_apply_brevo_event_to_lead l ev nowIso).1).email_opened = some true)
    ∧ (∀ (parse : String → Option Nat) (fetch : Lead → Option (Option String))
        (ttl now : Nat) (nowIso : String) (pids : Option (List String)) (l : Lead),
        l.email_opened = some true →
        (_refresh_lead parse fetch ttl now nowIso pids l).lead = l
        ∧ (_refresh_lead parse fetch ttl now nowIso pids l).fetched = false) := by
  constructor
  · intro l ev nowIso h
    simp only [_apply_brevo_event_to_lead]
    by_cases he : eventTypeOf ev = ""
    · rw [if_pos he]
      exact h
    · rw [if_neg he]
      rw [(applyLastStep_open_fields _ _ _).1]
      apply applyKindStep_keeps_opened
      rw [(applyCheckedAtStep_open_fields _ _).1, (applyMsgIdStep_open_fields _ _).1]
      exact h
  · intro parse fetch ttl now nowIso pids l h
    exact refresh_keeps_opened_lead parse fetch ttl now nowIso pids l h

/-- Witness for C1 at a concrete opened lead and a concrete `delivered`
event (the poll oracle is adversarial: it would report "no open" if it
were ever consulted). -/
theorem C1_opened_is_sticky_witness :
    leadC1.email_opened = some true
    ∧ ((_apply_brevo_event_to_lead leadC1 evC1 "2024-01-01T12:00:00").1).email_opened
        = some true
    ∧ (_refresh_lead (fun _ => none) (fun _ => none) 300 1000 "2024-01-01T12:00:00"
        none leadC1).lead = leadC1 := by
  refine ⟨by decide, C1_opened_is_sticky.1 leadC1 evC1 "2024-01-01T12:00:00" (by decide),
    (C1_opened_is_sticky.2 (fun _ => none) (fun _ => none) 300 1000
      "2024-01-01T12:00:00" none leadC1 (by decide)).1⟩

/-- Counterexample to C5: merging a later `opened` event with a
different timestamp into an already-opened lead overwrites the
originally recorded `email_opened_at` — the "only if this is the first
time" part of the claim is false on the code, which refreshes the field
whenever it differs. -/
theorem C5_counterexample :
    leadC5.email_opened = some true
    ∧ leadC5.email_opened_at = some "2024-01-01T10:00:00Z"
    ∧ ((_apply_brevo_event_to_lead leadC5 evC5 "2024-01-02T12:00:00").1).email_opened_at
        = some "2024-01-02T11:00:00Z"
    ∧ ¬ ((_apply_brevo_event_to_lead leadC5 evC5 "2024-01-02T12:00:00").1).email_opened_at
        = leadC5.email_opened_at := by decide

/-- C5 (amended).  Merging an `opened` event sets `email_opened = true`
(a no-op if already true), sets `email_open_state = opened`, and writes
`email_opened_at` with the event's timestamp (falling back to the
processing timestamp when the event has no truthy date) whenever the
stored value differs — i.e. it records the latest observed open, not the
first. -/
theorem C5_opened_merge_latest_timestamp :
    ∀ (l : Lead) (ev : BrevoEvent) (nowIso : String),
      eventTypeOf ev = "opened" →
      ((_apply_brevo_event_to_lead l ev nowIso).1).email_opened = some true
      ∧ ((_apply_brevo_event_to_lead l ev nowIso).1).email_open_state = some "opened"
      ∧ ((_apply_brevo_event_to_lead l ev nowIso).1).email_opened_at
          = some (pyOrStr ev.date nowIso) := by
  intro l ev nowIso he
  have hne : ¬ eventTypeOf ev = "" := by rw [he]; decide
  refine ⟨?_, ?_, ?_⟩
  · simp only [_apply_brevo_event_to_lead]
    rw [if_neg hne]
    rw [he]
    rw [(applyLastStep_open_fields _ _ _).1]
    exact (applyKindStep_opened_fields _ _).1
  · simp only [_apply_brevo_event_to_lead]
    rw [if_neg hne]
    rw [he]
    rw [(applyLastStep_open_fields _ _ _).2.2]
    exact (applyKindStep_opened_fields _ _).2.2
  · simp only [_apply_brevo_event_to_lead]
    rw [if_neg hne]
    rw [he]
    rw [(applyLastStep_open_fields _ _ _).2.1]
    exact (applyKindStep_opened_fields _ _).2.1

/-- Witness for the amended C5 at the concrete lead and event of the
counterexample. -/
theorem C5_opened_merge_latest_timestamp_witness :
    eventTypeOf evC5 = "opened"
    ∧ ((_apply_brevo_event_to_lead leadC5 evC5 "2024-01-02T12:00:00").1).email_opened
        = some true := by
  exact ⟨by decide,
    (C5_opened_merge_latest_timestamp leadC5 evC5 "2024-01-02T12:00:00" (by decide)).1⟩

/-- Helper: if some lead's normalized stored message id equals the
non-empty key `m`, the message-id index resolves `m` to a position whose
lead carries exactly that normalized id (the dict is last-wins, so the
position is the highest such one). -/
theorem build_msg_index_hit (leads : List Lead) (m : String) (hm : m ≠ "")
    (hex : ∃ i, i < leads.length
      ∧ _normalize_message_id (leadAt leads i).brevo_message_id = m) :
    ∃ j, _build_msg_index leads m = some j ∧ j < leads.length
      ∧ _normalize_message_id (leadAt leads j).brevo_message_id = m := by
  obtain ⟨i, hi, hni⟩ := hex
  have hmem : i ∈ (List.range leads.length).reverse := by
    rw [List.mem_reverse]
    exact List.mem_range.mpr hi
  have hsome : ((List.range leads.length).reverse.find?
      (fun k => _normalize_message_id (leadAt leads k).brevo_message_id = m)).isSome := by
    apply List.find?_isSome.mpr
    exact ⟨i, hmem, by simp [hni]⟩
  obtain ⟨j, hj⟩ := Option.isSome_iff_exists.mp hsome
  refine ⟨j, ?_, ?_, ?_⟩
  · simp only [_build_msg_index, if_neg hm]
    exact hj
  · have hjm := List.mem_of_find?_eq_some hj
    rw [List.mem_reverse, List.mem_range] at hjm
    exact hjm
  · have hp := List.find?_some hj
    simpa using hp

/-- C3.  Message-id precedence: when the event's normalized message-id
equals the normalized stored `brevo_message_id` of some lead, the
correlator resolves the event through the message-id index to a lead
with exactly that id and returns it immediately — the result is the same
for every email index whatsoever, so the email/time heuristics are never
consulted, even when another lead shares the recipient email. -/
theorem C3_message_id_precedence :
    ∀ (parse : String → Option Nat) (leads : List Lead) (ev : BrevoEvent),
      eventMessageId ev ≠ "" →
      (∃ i, i < leads.length
        ∧ _normalize_message_id (leadAt leads i).brevo_message_id = eventMessageId ev) →
      ∃ j, j < leads.length
        ∧ _normalize_message_id (leadAt leads j).brevo_message_id = eventMessageId ev
        ∧ ∀ emailIdx : String → List Nat,
            _find_lead_for_brevo_event parse leads ev (_build_msg_index leads) emailIdx
              = some j := by
  intro parse leads ev hm hex
  obtain ⟨j, hj, hjlen, hjid⟩ := build_msg_index_hit leads (eventMessageId ev) hm hex
  refine ⟨j, hjlen, hjid, fun emailIdx => ?_⟩
  simp only [_find_lead_for_brevo_event, if_neg hm, hj]

/-- Witness for C3: lead `p3a` stores id `abc`, lead `p3b` shares the
email; the event carries `<abc>` and matches position 0 regardless of
the email index. -/
theorem C3_message_id_precedence_witness :
    eventMessageId evC3 = "abc"
    ∧ (∃ j, j < ([leadC3a, leadC3b] : List Lead).length
        ∧ _normalize_message_id (leadAt [leadC3a, leadC3b] j).brevo_message_id
            = eventMessageId evC3
        ∧ ∀ emailIdx : String → List Nat,
            _find_lead_for_brevo_event (fun _ => none) [leadC3a, leadC3b] evC3
              (_build_msg_index [leadC3a, leadC3b]) emailIdx = some j) := by
  exact ⟨by decide, C3_message_id_precedence (fun _ => none) [leadC3a, leadC3b] evC3
    (by decide) ⟨0, by decide, by decide⟩⟩

/-- Helper: membership through the stable descending insert. -/
theorem mem_orderedInsertDesc (key : Nat → Nat) (a x : Nat) (l : List Nat) :
    x ∈ orderedInsertDesc key a l ↔ x = a ∨ x ∈ l := by
  induction l with
  | nil => simp [orderedInsertDesc]
  | cons b bs ih =>
    simp only [orderedInsertDesc]
    split
    · simp [List.mem_cons]
    · simp only [List.mem_cons, ih]
      tauto

/-- Helper: the stable descending insert preserves descending order. -/
theorem pairwise_orderedInsertDesc (key : Nat → Nat) (a : Nat) (l : List Nat)
    (h : l.Pairwise (fun i j => key j ≤ key i)) :
    (orderedInsertDesc key a l).Pairwise (fun i j => key j ≤ key i) := by
  induction l with
  | nil => simp [orderedInsertDesc]
  | cons b bs ih =>
    rcases List.pairwise_cons.mp h with ⟨hb, hbs⟩
    simp only [orderedInsertDesc]
    split
    · rename_i hba
      refine List.pairwise_cons.mpr ⟨?_, h⟩
      intro y hy
      rcases List.mem_cons.mp hy with rfl | hy'
      · exact hba
      · exact le_trans (hb y hy') hba
    · rename_i hba
      push_neg at hba
      refine List.pairwise_cons.mpr ⟨?_, ih hbs⟩
      intro y hy
      rcases (mem_orderedInsertDesc key a y bs).mp hy with rfl | hy'
      · exact le_of_lt hba
      · exact hb y hy'

/-- Helper: the stable sort produces a key-descending list. -/
theorem pairwise_sortByKeyDesc (key : Nat → Nat) (l : List Nat) :
    (sortByKeyDesc key l).Pairwise (fun i j => key j ≤ key i) := by
  induction l with
  | nil => simp [sortByKeyDesc]
  | cons a as ih =>
    simp only [sortByKeyDesc]
    exact pairwise_orderedInsertDesc key a _ ih

/-- Helper: the stable sort is a permutation membership-wise. -/
theorem mem_sortByKeyDesc (key : Nat → Nat) (l : List Nat) (x : Nat) :
    x ∈ sortByKeyDesc key l ↔ x ∈ l := by
  induction l with
  | nil => simp [sortByKeyDesc]
  | cons a as ih =>
    simp only [sortByKeyDesc, mem_orderedInsertDesc, ih, List.mem_cons]

/-- Helper: the email index is sorted by parsed `sent_at` descending
(undated leads carry the global-minimum key `0`, hence sort last). -/
theorem email_index_sorted (parse : String → Option Nat) (leads : List Lead)
    (email : String) :
    (_build_email_index parse leads email).Pairwise
      (fun i j => sentKey parse (leadAt leads j) ≤ sentKey parse (leadAt leads i)) := by
  simp only [_build_email_index]
  split
  · simp
  · exact pairwise_sortByKeyDesc _ _

/-- Helper: every position in the email index is a valid snapshot
position whose lead carries exactly the looked-up email key. -/
theorem email_index_members (parse : String → Option Nat) (leads : List Lead)
    (email : String) :
    ∀ i ∈ _build_email_index parse leads email,
      i < leads.length ∧ emailKeyOf (leadAt leads i) = email := by
  intro i hi
  by_cases he : email = ""
  · simp [_build_email_index, he] at hi
  · simp only [_build_email_index, if_neg he] at hi
    rw [mem_sortByKeyDesc] at hi
    have hm := List.mem_filter.mp hi
    exact ⟨List.mem_range.mp hm.1, by simpa using hm.2⟩

/-- C2.  Time-window fallback matching: when the message-id lookup
yields nothing and the event carries a recipient email with candidates
and a parseable timestamp `t`, the correlator returns the first
candidate (in the most-recent-first candidate order) whose parsed
`sent_at` is `≤ t + 600` seconds, falling back to the single most recent
candidate (the head) when no candidate satisfies the window; the
candidate list itself is sorted by `sent_at` descending with undated
leads last and contains exactly positions of leads carrying the email.
Concretely, with two leads sharing an email sent at T and T+20min, an
event timestamped T+5min matches the lead sent at T. -/
theorem C2_time_window_fallback :
    (∀ (parse : String → Option Nat) (leads : List Lead) (ev : BrevoEvent)
        (msgIdx : String → Option Nat) (emailIdx : String → List Nat)
        (t c : Nat) (cs : List Nat),
      (eventMessageId ev = "" ∨ msgIdx (eventMessageId ev) = none) →
      eventEmailKey ev ≠ "" →
      emailIdx (eventEmailKey ev) = c :: cs →
      _parse_iso_timestamp parse ev.date = some t →
      _find_lead_for_brevo_event parse leads ev msgIdx emailIdx
        = some (((c :: cs).find? (fun i =>
            match _parse_iso_timestamp parse (leadAt leads i).sent_at with
            | some s => decide (s ≤ t + 600)
            | none => false)).getD c))
    ∧ (∀ (parse : String → Option Nat) (leads : List Lead) (email : String),
        (_build_email_index parse leads email).Pairwise
          (fun i j => sentKey parse (leadAt leads j) ≤ sentKey parse (leadAt leads i))
        ∧ ∀ i ∈ _build_email_index parse leads email,
            i < leads.length ∧ emailKeyOf (leadAt leads i) = email)
    ∧ (_find_lead_for_brevo_event parseC2 [leadC2T, leadC2T20] evC2
          (_build_msg_index [leadC2T, leadC2T20])
          (_build_email_index parseC2 [leadC2T, leadC2T20]) = some 0
        ∧ leadAt [leadC2T, leadC2T20] 0 = leadC2T
        ∧ leadC2T.sent_at = some "2024-01-01T10:00:00"
        ∧ leadC2T20.sent_at = some "2024-01-01T10:20:00"
        ∧ evC2.date = some "2024-01-01T10:05:00") := by
  refine ⟨?_, fun parse leads email =>
    ⟨email_index_sorted parse leads email, email_index_members parse leads email⟩,
    by decide⟩
  intro parse leads ev msgIdx emailIdx t c cs hmid hemail hcand hdate
  have hfirst : (if eventMessageId ev = "" then none else msgIdx (eventMessageId ev))
      = none := by
    rcases hmid with h | h
    · rw [if_pos h]
    · rw [h]
      split <;> rfl
  simp only [_find_lead_for_brevo_event, hfirst, if_neg hemail, hcand, hdate]
  cases hf : (c :: cs).find? (fun i =>
      match _parse_iso_timestamp parse (leadAt leads i).sent_at with
      | some s => decide (s ≤ t + 600)
      | none => false) with
  | none => simp [hf]
  | some j => simp [hf]

/-- Witness for C2 instantiating the window scan on the concrete
two-lead scenario: the candidate order is [T+20min, T] and the scan
settles on the lead sent at T. -/
theorem C2_time_window_fallback_witness :
    eventMessageId evC2 = ""
    ∧ eventEmailKey evC2 = "a@x.com"
    ∧ _build_email_index parseC2 [leadC2T, leadC2T20] (eventEmailKey evC2) = [1, 0]
    ∧ _parse_iso_timestamp parseC2 evC2.date = some 1300
    ∧ _find_lead_for_brevo_event parseC2 [leadC2T, leadC2T20] evC2
        (_build_msg_index [leadC2T, leadC2T20])
        (_build_email_index parseC2 [leadC2T, leadC2T20])
      = some ((([1, 0] : List Nat).find? (fun i =>
          match _parse_iso_timestamp parseC2 (leadAt [leadC2T, leadC2T20] i).sent_at with
          | some s => decide (s ≤ 1300 + 600)
          | none => false)).getD 1) := by
  refine ⟨by decide, by decide, by decide, by decide, ?_⟩
  exact C2_time_window_fallback.1 parseC2 [leadC2T, leadC2T20] evC2
    (_build_msg_index [leadC2T, leadC2T20])
    (_build_email_index parseC2 [leadC2T, leadC2T20]) 1300 1 [0]
    (Or.inl (by decide)) (by decide) (by decide) (by decide)

/-- C8.  Freshness short-circuit: the freshness test holds exactly when
the claim says (already opened, or checked within the strict TTL
window); every fresh lead goes through the poll untouched and without a
provider call; every in-scope stale `Sent` lead lacking a provider
message id gets `email_open_state = unknown` and a refreshed
`email_open_checked_at` (nothing else mutated), also without a provider
call. -/
theorem C8_freshness_short_circuit :
    (∀ (parse : String → Option Nat) (ttl now : Nat) (l : Lead),
      _is_open_status_fresh parse ttl now l = true ↔ freshnessClaim parse ttl now l)
    ∧ (∀ (parse : String → Option Nat) (fetch : Lead → Option (Option String))
        (ttl now : Nat) (nowIso : String) (pids : Option (List String)) (l : Lead),
        _is_open_status_fresh parse ttl now l = true →
        (_refresh_lead parse fetch ttl now nowIso pids l).lead = l
        ∧ (_refresh_lead parse fetch ttl now nowIso pids l).fetched = false)
    ∧ (∀ (parse : String → Option Nat) (fetch : Lead → Option (Option String))
        (ttl now : Nat) (nowIso : String) (pids : Option (List String)) (l : Lead),
        optTruthy l.place_id = true →
        (pids = none ∨ ∃ ids, pids = some ids ∧ (l.place_id.getD "") ∈ ids) →
        statusLower l = "sent" →
        _is_open_status_fresh parse ttl now l = false →
        strTrim (l.brevo_message_id.getD "") = "" →
        (_refresh_lead parse fetch ttl now nowIso pids l).lead
          = { l with
                email_open_state := some "unknown"
                email_open_checked_at := some nowIso }
        ∧ (_refresh_lead parse fetch ttl now nowIso pids l).fetched = false
        ∧ (_refresh_lead parse fetch ttl now nowIso pids l).update
          = some (l.place_id.getD "",
              ⟨false, l.email_opened_at, some nowIso, "unknown"⟩)) := by
  refine ⟨?_, ?_, ?_⟩
  · intro parse ttl now l
    constructor
    · intro h
      by_cases ho : openedTruthy l = true
      · exact Or.inl (by simpa [openedTruthy] using ho)
      · right
        simp only [_is_open_status_fresh, if_neg ho] at h
        cases hp : _parse_iso_timestamp parse l.email_open_checked_at with
        | none => rw [hp] at h; exact absurd h (by simp)
        | some t =>
          rw [hp] at h
          exact ⟨t, rfl, of_decide_eq_true h⟩
    · intro h
      rcases h with h | ⟨t, ht, hlt⟩
      · have ho : openedTruthy l = true := by simp [openedTruthy, h]
        simp [_is_open_status_fresh, ho]
      · by_cases ho : openedTruthy l = true
        · simp [_is_open_status_fresh, ho]
        · simp only [_is_open_status_fresh, if_neg ho, ht]
          exact decide_eq_true hlt
  · intro parse fetch ttl now nowIso pids l h
    simp only [_refresh_lead, h, if_true]
    split_ifs <;> exact ⟨rfl, rfl⟩
  · intro parse fetch ttl now nowIso pids l hpid hscope hsent hstale hmid
    simp only [_refresh_lead]
    cases pids with
    | none =>
      rw [if_neg (by simp [hpid]), if_neg (by simp), if_neg (by simp [hsent]),
        if_neg (by simp [hstale]), if_pos hmid]
      exact ⟨rfl, rfl, rfl⟩
    | some ids =>
      have hin : (l.place_id.getD "") ∈ ids := by
        rcases hscope with h | ⟨ids2, h2, hin2⟩
        · exact absurd h (by simp)
        · injection h2 with h3
          rw [h3]
          exact hin2
      rw [if_neg (by simp [hpid]), if_neg (by simp [hin]), if_neg (by simp [hsent]),
        if_neg (by simp [hstale]), if_pos hmid]
      exact ⟨rfl, rfl, rfl⟩

/-- Witness for C8: a freshly checked lead (checked at second 100, now
200, TTL 300) passes the freshness test and comes through the poll
untouched; a stale lead with no message id is set to `unknown` with a
refreshed check timestamp — the provider oracle (which would claim an
open) is never consulted in either case. -/
theorem C8_freshness_short_circuit_witness :
    _is_open_status_fresh parseC8 300 200 leadC8fresh = true
    ∧ freshnessClaim parseC8 300 200 leadC8fresh
    ∧ (_refresh_lead parseC8 (fun _ => some none) 300 200 "N" none leadC8fresh).lead
        = leadC8fresh
    ∧ (_refresh_lead parseC8 (fun _ => some none) 300 200 "N" none leadC8fresh).fetched
        = false
    ∧ (_refresh_lead parseC8 (fun _ => some none) 300 200 "N" none leadC8stale).fetched
        = false
    ∧ (_refresh_lead parseC8 (fun _ => some none) 300 200 "N" none leadC8stale).lead
        = { leadC8stale with
              email_open_state := some "unknown"
              email_open_checked_at := some "N" } := by
  have h1 : _is_open_status_fresh parseC8 300 200 leadC8fresh = true := by decide
  refine ⟨h1, (C8_freshness_short_circuit.1 parseC8 300 200 leadC8fresh).mp h1,
    (C8_freshness_short_circuit.2.1 parseC8 (fun _ => some none) 300 200 "N" none
      leadC8fresh h1).1,
    (C8_freshness_short_circuit.2.1 parseC8 (fun _ => some none) 300 200 "N" none
      leadC8fresh h1).2, ?_, ?_⟩
  · exact (C8_freshness_short_circuit.2.2 parseC8 (fun _ => some none) 300 200 "N" none
      leadC8stale (by decide) (Or.inl rfl) (by decide) (by decide) (by decide)).2.1
  · exact (C8_freshness_short_circuit.2.2 parseC8 (fun _ => some none) 300 200 "N" none
      leadC8stale (by decide) (Or.inl rfl) (by decide) (by decide) (by decide)).1

/-- Helper: with the empty filter set, the poll loop body skips every
lead (the scope test `place_id not in set()` always fires). -/
theorem refresh_lead_empty_filter (parse : String → Option Nat)
    (fetch : Lead → Option (Option String)) (ttl now : Nat) (nowIso : String)
    (l : Lead) :
    _refresh_lead parse fetch ttl now nowIso (some []) l = ⟨l, none, false, false⟩ := by
  simp only [_refresh_lead]
  by_cases hp : optTruthy l.place_id = true
  · rw [if_neg (by simp [hp]), if_pos (by simp)]
  · rw [if_pos hp]

/-- Helper: filtering a list through a constantly-`none` selector keeps
nothing. -/
theorem filterMap_const_none {α β : Type} (l : List α) :
    l.filterMap (fun _ => (none : Option β)) = [] := by
  induction l with
  | nil => rfl
  | cons a as ih => simp [List.filterMap_cons, ih]

/-- Helper: the whole poll with the empty filter set considers no lead:
nothing is mutated, no update entry is produced, no provider call is
made. -/
theorem refresh_empty_filter (parse : String → Option Nat)
    (fetch : Lead → Option (Option String)) (ttl now : Nat) (nowIso : String)
    (leads : List Lead) :
    _refresh_open_statuses parse fetch ttl now nowIso (some []) leads
      = ⟨leads, [], false, 0⟩ := by
  simp [_refresh_open_statuses, refresh_lead_empty_filter, filterMap_const_none]

/-- Counterexample to C4: a snapshot holding one `Sent` lead; an
open-status request with `place_ids` omitted (or empty) returns an empty
`statuses` mapping — no entry for the Sent lead — whereas the genuinely
unfiltered refresh (reachable only through a truthy non-list
`place_ids`) does return its entry.  The claim's "omit/empty = all Sent
leads" is false on the code. -/
theorem C4_counterexample :
    statusLower leadC4 = "sent"
    ∧ (get_open_status (fun _ => none) (fun _ => none) 300 0 "N"
        PlaceIdsField.missing [leadC4]).updates = []
    ∧ (get_open_status (fun _ => none) (fun _ => none) 300 0 "N"
        (PlaceIdsField.listOf []) [leadC4]).updates = []
    ∧ (get_open_status (fun _ => none) (fun _ => none) 300 0 "N"
        PlaceIdsField.nonListTruthy [leadC4]).updates
      = [("p4", ⟨true, some "o4", some "c4", "opened"⟩)] := by decide

/-- C4 (amended).  An open-status request whose `place_ids` field is
omitted (or `null`, or an empty list) produces the empty filter set, so
no lead passes the scope test: the returned `statuses` mapping is empty,
the collection is unchanged and the provider is never called.  The
all-`Sent`-leads behaviour (filter `None`) is reachable only through a
truthy non-list `place_ids` value. -/
theorem C4_open_status_empty_scope :
    ∀ (parse : String → Option Nat) (fetch : Lead → Option (Option String))
      (ttl now : Nat) (nowIso : String) (leads : List Lead),
      openStatusFilter PlaceIdsField.missing = some []
      ∧ openStatusFilter (PlaceIdsField.listOf []) = some []
      ∧ openStatusFilter PlaceIdsField.nonListTruthy = none
      ∧ get_open_status parse fetch ttl now nowIso PlaceIdsField.missing leads
          = ⟨leads, [], false, 0⟩
      ∧ get_open_status parse fetch ttl now nowIso (PlaceIdsField.listOf []) leads
          = ⟨leads, [], false, 0⟩ := by
  intro parse fetch ttl now nowIso leads
  refine ⟨rfl, rfl, rfl, ?_, ?_⟩ <;>
    exact refresh_empty_filter parse fetch ttl now nowIso leads

/-- Helper: one webhook loop step bumps the matched counter by at most
one. -/
theorem webhookFold_matched_le (parse : String → Option Nat) (nowIso : String)
    (emailIdx : String → List Nat)
    (st : List Lead × (String → Option Nat) × Nat × Bool) (ev : BrevoEvent) :
    (webhookFold parse nowIso emailIdx st ev).2.2.1 ≤ st.2.2.1 + 1 := by
  simp only [webhookFold]
  split
  · exact Nat.le_succ _
  · split_ifs <;> exact Nat.le_refl _

/-- Helper: over a whole batch, the matched count grows by at most the
number of events. -/
theorem webhook_foldl_matched_le (parse : String → Option Nat) (nowIso : String)
    (emailIdx : String → List Nat) (events : List BrevoEvent) :
    ∀ st : List Lead × (String → Option Nat) × Nat × Bool,
      (events.foldl (webhookFold parse nowIso emailIdx) st).2.2.1
        ≤ st.2.2.1 + events.length := by
  induction events with
  | nil => intro st; simp
  | cons e es ih =>
    intro st
    simp only [List.foldl_cons, List.length_cons]
    calc (es.foldl (webhookFold parse nowIso emailIdx)
            (webhookFold parse nowIso emailIdx st e)).2.2.1
        ≤ (webhookFold parse nowIso emailIdx st e).2.2.1 + es.length := ih _
      _ ≤ (st.2.2.1 + 1) + es.length :=
          Nat.add_le_add_right (webhookFold_matched_le parse nowIso emailIdx st e) _
      _ = st.2.2.1 + (es.length + 1) := by omega

/-- Counterexample to C9: a request body from which zero events are
extracted (e.g. a JSON `null` or scalar body) is answered 200 with
`{'message': 'No events in payload'}` — the `received` and `matched`
fields are absent, contradicting the claim's "for every request body".
-/
theorem C9_counterexample :
    (brevo_webhook_post (fun _ => none) BrevoPayload.other [] "N").statusCode = 200
    ∧ (brevo_webhook_post (fun _ => none) BrevoPayload.other [] "N").received = none
    ∧ (brevo_webhook_post (fun _ => none) BrevoPayload.other [] "N").matched = none := by
  decide

/-- C9 (amended).  The webhook endpoint always answers HTTP 200; when at
least one event is extracted from the body the JSON reply carries
`received` = number of events and `matched` = number of matched leads
(with matched ≤ received, including zero); when zero events are
extracted the 200 reply is a message-only body without the `received`
and `matched` fields. -/
theorem C9_webhook_response_shape :
    ∀ (parse : String → Option Nat) (payload : BrevoPayload) (leads : List Lead)
      (nowIso : String),
      (brevo_webhook_post parse payload leads nowIso).statusCode = 200
      ∧ (_extract_brevo_events payload ≠ [] →
          (brevo_webhook_post parse payload leads nowIso).received
            = some (_extract_brevo_events payload).length
          ∧ ∃ k, (brevo_webhook_post parse payload leads nowIso).matched = some k
              ∧ k ≤ (_extract_brevo_events payload).length)
      ∧ (_extract_brevo_events payload = [] →
          (brevo_webhook_post parse payload leads nowIso).received = none
          ∧ (brevo_webhook_post parse payload leads nowIso).matched = none) := by
  intro parse payload leads nowIso
  by_cases he : _extract_brevo_events payload = []
  · refine ⟨?_, fun hne => absurd he hne, fun _ => ⟨?_, ?_⟩⟩ <;>
      simp [brevo_webhook_post, he]
  · have hne : (_extract_brevo_events payload).isEmpty = false := by
      cases hfe : _extract_brevo_events payload with
      | nil => exact absurd hfe he
      | cons x xs => rfl
    refine ⟨?_, fun _ => ⟨?_, ?_⟩, fun habs => absurd habs he⟩
    · simp [brevo_webhook_post, hne]
    · simp [brevo_webhook_post, hne]
    · refine ⟨((_extract_brevo_events payload).foldl
          (webhookFold parse nowIso (_build_email_index parse leads))
          (leads, _build_msg_index leads, 0, false)).2.2.1, ?_, ?_⟩
      · simp [brevo_webhook_post, hne]
      · have hb := webhook_foldl_matched_le parse nowIso (_build_email_index parse leads)
          (_extract_brevo_events payload) (leads, _build_msg_index leads, 0, false)
        simpa using hb

/-- Witness for the amended C9: a one-event body whose recipient matches
no lead still gets `received = 1` and a matched count of at most one
(here zero) with status 200. -/
theorem C9_webhook_response_shape_witness :
    _extract_brevo_events (BrevoPayload.dictPlain evC9) ≠ []
    ∧ (brevo_webhook_post (fun _ => none) (BrevoPayload.dictPlain evC9) [] "N").received
        = some 1
    ∧ ∃ k, (brevo_webhook_post (fun _ => none) (BrevoPayload.dictPlain evC9) [] "N").matched
          = some k
        ∧ k ≤ 1 := by
  have h := (C9_webhook_response_shape (fun _ => none) (BrevoPayload.dictPlain evC9)
    [] "N").2.1 (by decide)
  exact ⟨by decide, h.1, h.2⟩

/-- Witness for C7: one Approved lead is queued on the first pass; the
second pass queues 0 and returns the collection unchanged. -/
theorem C7_bulk_queue_idempotent_witness :
    (_queue_approved_leads_for_sending "t1" [leadW7]).2 = 1
    ∧ _queue_approved_leads_for_sending "t2"
        (_queue_approved_leads_for_sending "t1" [leadW7]).1
      = ((_queue_approved_leads_for_sending "t1" [leadW7]).1, 0) := by
  exact ⟨by decide, (C7_bulk_queue_idempotent "t1" "t2" [leadW7]).2.2⟩

/-- Witness for C6: in a pass over a queued lead with an email and a
queued lead whose `sent_at` is set, only the former is dispatched, and
the theorem certifies its eligibility; the already-sent lead is absent
from the dispatched set. -/
theorem C6_at_most_once_send_witness :
    leadW6 ∈ (_process_pass (fun _ => DispatchOutcome.ok (some "mid")) "N"
        [leadW6, leadW6sent]).dispatched
    ∧ (statusLower leadW6 = "queued" ∧ optTruthy leadW6.sent_at = false)
    ∧ leadW6sent ∉ (_process_pass (fun _ => DispatchOutcome.ok (some "mid")) "N"
        [leadW6, leadW6sent]).dispatched := by
  have hmem : leadW6 ∈ (_process_pass (fun _ => DispatchOutcome.ok (some "mid")) "N"
      [leadW6, leadW6sent]).dispatched := by decide
  exact ⟨hmem,
    C6_at_most_once_send (fun _ => DispatchOutcome.ok (some "mid")) "N"
      [leadW6, leadW6sent] leadW6 hmem,
    by decide⟩

/-- Witness for C10: a snapshot holding only a queued no-email lead
leaves the worker running unchanged after (for instance) three
iterations. -/
theorem C10_no_email_starves_worker_witness :
    (∀ l ∈ [leadW10], sendEligible l = true → optTruthy l.email = false)
    ∧ workerRun (fun _ => DispatchOutcome.ok none) "N" 3 [leadW10] = some [leadW10] := by
  have hAll : ∀ l ∈ [leadW10], sendEligible l = true → optTruthy l.email = false := by
    decide
  exact ⟨hAll,
    (C10_no_email_starves_worker (fun _ => DispatchOutcome.ok none) "N" [leadW10]
      hAll ⟨leadW10, by decide, by decide⟩).2.2 3⟩
